import Mathlib

/-!
Verification development for the EDP_data_search RAG pipeline.

Shallow embedding of the query-orchestration pipeline:
- `parsers/query_parser.py`   : `QueryIntent` and its validation / derived properties
- `geocoder/geocoding.py`     : `BoundingBox` validation and `GeocodingService.get_bounding_box`
- `pg_database/postgis_db.py` : `PostGISService.find_dataset_ids_by_bbox`
- `services/retrieval_service.py` : `SearchResult`, `DatasetRetrievalService`
- `services/response_generator.py`: `ResponseGenerator.generate_response`
- `services/orchestrator.py`  : `RAGOrchestrator.process_query` and both branches

External collaborators (language model, geocoder, spatial index, vector index)
are modelled as oracles passed in explicitly; Python exceptions are modelled
with `Except`; Python floats are modelled with `ℚ` (only order comparisons and
equality are performed on them in the embedded code).
-/

/-- Python `str.strip()` on the underlying character list: drop whitespace
from the front, then from the back. -/
def stripList (l : List Char) : List Char :=
  List.rdropWhile Char.isWhitespace (List.dropWhile Char.isWhitespace l)

/-- Python `str.strip()`. -/
def pyStrip (s : String) : String := String.mk (stripList s.data)

/-- Structured query intent, from `parsers/query_parser.py` (`QueryIntent`). -/
structure QueryIntent where
  raw_theme : String
  locations : List String
  themes : List String
  publishers : List String
  language : String
deriving DecidableEq

/-- Pydantic construction of a `QueryIntent`: the `validate_raw_theme` validator
rejects an empty-after-strip `raw_theme` and stores the stripped value. -/
def mkQueryIntent (raw_theme : String) (locations themes publishers : List String)
    (language : String) : Except String QueryIntent :=
  if pyStrip raw_theme = "" then Except.error "raw_theme cannot be empty"
  else Except.ok ⟨pyStrip raw_theme, locations, themes, publishers, language⟩

/-- `QueryIntent.has_location`: `len(self.locations) > 0`. -/
def QueryIntent.has_location (i : QueryIntent) : Bool := decide (0 < i.locations.length)

/-- `QueryIntent.core_search_terms`: strip `[raw_theme] + themes` and keep the
non-empty results. -/
def QueryIntent.core_search_terms (i : QueryIntent) : List String :=
  (i.raw_theme :: i.themes).filterMap fun term =>
    if pyStrip term = "" then none else some (pyStrip term)

/-- Geographic bounding box, from `geocoder/geocoding.py` (`BoundingBox`). -/
structure BoundingBox where
  north : ℚ
  south : ℚ
  east : ℚ
  west : ℚ
deriving DecidableEq

/-- `BoundingBox.__post_init__` validation: dataclass construction either
raises `ValueError` or returns the fields unchanged. -/
def mkBoundingBox (north south east west : ℚ) : Except String BoundingBox :=
  if ¬(-90 ≤ north ∧ north ≤ 90 ∧ -90 ≤ south ∧ south ≤ 90) then
    Except.error "Latitude must be between -90 and 90 degrees."
  else if ¬(-180 ≤ east ∧ east ≤ 180 ∧ -180 ≤ west ∧ west ≤ 180) then
    Except.error "Longitude must be between -180 and 180 degrees."
  else if south > north then
    Except.error "South latitude must be less than North latitude."
  else Except.ok ⟨north, south, east, west⟩

/-- Outcome of one call to the external geocoder (`geopy` `Nominatim.geocode`):
a transient service error (`GeocoderTimedOut` / `GeocoderServiceError`), a
successful lookup without a usable bounding box (no match), or a raw provider
bounding box `[south, north, west, east]`. -/
inductive GeocodeOutcome where
  | transient : GeocodeOutcome
  | noBox : GeocodeOutcome
  | box (south north west east : ℚ) : GeocodeOutcome
deriving DecidableEq

/-- The `for attempt in range(retry_attempts)` loop of
`GeocodingService.get_bounding_box`, with the per-attempt geocoder outcome
supplied by `oracle`. The first argument of the recursion is the number of
remaining loop iterations, the second the current value of `attempt`. Returns
the result (a `ValueError` from `BoundingBox` construction is not caught by
the `except` clause, hence the `Except`) together with the number of geocoding
lookups issued. -/
def getBBoxLoop (oracle : Nat → GeocodeOutcome) (retry_attempts : Nat) :
    Nat → Nat → Except String (Option BoundingBox) × Nat
  | 0, attempt => (Except.ok none, attempt)
  | remaining + 1, attempt =>
      match oracle attempt with
      | GeocodeOutcome.box s n w e => ((mkBoundingBox n s e w).map some, attempt + 1)
      | GeocodeOutcome.noBox => (Except.ok none, attempt + 1)
      | GeocodeOutcome.transient =>
          if attempt = retry_attempts - 1 then (Except.ok none, attempt + 1)
          else getBBoxLoop oracle retry_attempts remaining (attempt + 1)

/-- `GeocodingService.get_bounding_box(location_query, retry_attempts)`. -/
def get_bounding_box (oracle : Nat → GeocodeOutcome) (location_query : String)
    (retry_attempts : Nat) : Except String (Option BoundingBox) × Nat :=
  getBBoxLoop oracle retry_attempts retry_attempts 0

/-- Decidable equality for `Except`, used to evaluate the embedded functions on
concrete inputs. -/
instance {ε α : Type} [DecidableEq ε] [DecidableEq α] : DecidableEq (Except ε α) := by
  intro a b
  cases a <;> cases b
  case error.error x y =>
    exact if h : x = y then isTrue (by rw [h]) else isFalse (by simp [h])
  case error.ok x y => exact isFalse (by simp)
  case ok.error x y => exact isFalse (by simp)
  case ok.ok x y =>
    exact if h : x = y then isTrue (by rw [h]) else isFalse (by simp [h])

/-- `PostGISService.find_dataset_ids_by_bbox`: raises when no connection is
established; otherwise runs the `ST_Intersects` query (outcome supplied by the
`spatialQuery` oracle on the envelope corners, in the order they are passed:
west, south, east, north) and converts any query error into an empty list. -/
def find_dataset_ids_by_bbox (connectionEstablished : Bool)
    (spatialQuery : ℚ → ℚ → ℚ → ℚ → Except String (List String))
    (bbox : BoundingBox) : Except String (List String) :=
  if connectionEstablished = false then Except.error "No database connection established"
  else
    match spatialQuery bbox.west bbox.south bbox.east bbox.north with
    | Except.ok rows => Except.ok rows
    | Except.error _ => Except.ok []

/-- A langchain `Document` as stored in the vector index: page content plus a
metadata mapping (modelled as an association list). -/
structure Document where
  page_content : String
  metadata : List (String × String)
deriving DecidableEq

/-- `SearchResult` from `services/retrieval_service.py`. -/
structure SearchResult where
  dataset_id : String
  content : String
  score : Option ℚ
  metadata : Option (List (String × String))
deriving DecidableEq

/-- `SearchResult.from_documents`: `dataset_id` is the `dataset_id` entry of
the document metadata, defaulting to the empty string. -/
def SearchResult.from_documents (document : Document) (score : Option ℚ) : SearchResult :=
  ⟨(List.lookup "dataset_id" document.metadata).getD "", document.page_content,
    score, some document.metadata⟩

/-- A Qdrant `models.FieldCondition` with a `MatchValue` match, as built by
`_build_dataset_id_filter`. -/
structure FieldCondition where
  key : String
  matchValue : String
deriving DecidableEq

/-- A Qdrant `models.Filter`, restricted to the two shapes the source builds:
an optional `must` list and an optional `should` list of field conditions. -/
structure QdrantFilter where
  must : Option (List FieldCondition)
  should : Option (List FieldCondition)
deriving DecidableEq

/-- `DatasetRetrievalService._build_dataset_id_filter`: one id gives a `must`
filter on that id; otherwise a `should` filter with one condition per id. -/
def _build_dataset_id_filter (dataset_ids : List String) : QdrantFilter :=
  match dataset_ids with
  | [d] => ⟨some [⟨"metadata.dataset_id", d⟩], none⟩
  | ds => ⟨none, some (ds.map fun dataset_id => ⟨"metadata.dataset_id", dataset_id⟩)⟩

/-- Modelled from the spec: `vector_stores/qdrant_store.py`
(`QdrantVectorStoreManager`) is not under `src/`; per the spec the vector store
holds each catalog entry as a langchain document whose metadata mapping is
stored under the payload key `metadata`, so a filter key `metadata.<field>`
addresses the `<field>` entry of the document metadata. -/
def payloadGet (doc : Document) (key : String) : Option String :=
  List.lookup key (doc.metadata.map fun p => ("metadata." ++ p.1, p.2))

/-- Modelled from the spec: a Qdrant `FieldCondition` with `MatchValue` holds
when the addressed payload field equals the match value. -/
def condMatches (doc : Document) (c : FieldCondition) : Bool :=
  payloadGet doc c.key == some c.matchValue

/-- Modelled from the spec: a Qdrant filter holds when all `must` conditions
hold and, if a `should` list is present, at least one of its conditions holds
(logical OR, never AND across the `should` set). -/
def filterMatches (f : QdrantFilter) (doc : Document) : Bool :=
  (match f.must with
   | none => true
   | some cs => cs.all (condMatches doc)) &&
  (match f.should with
   | none => true
   | some cs => cs.any (condMatches doc))

/-- Modelled from the spec: the vector-similarity index. `ranked` is the
outcome of one query: either an index/connection error or the catalog entries
ranked by non-increasing similarity to the query text, each with its score. -/
structure VectorStore where
  ranked : Except String (List (Document × ℚ))

/-- Modelled from the spec: `QdrantVectorStoreManager.similarity_search` —
apply the optional filter, then return the first `k` ranked documents. -/
def similarity_search (vs : VectorStore) (k : Nat)
    (filter_criteria : Option QdrantFilter) : Except String (List Document) :=
  match vs.ranked with
  | Except.error e => Except.error e
  | Except.ok docs =>
      Except.ok ((match filter_criteria with
        | none => docs
        | some f => docs.filter fun p => filterMatches f p.1).take k |>.map Prod.fst)

/-- Modelled from the spec: `QdrantVectorStoreManager.similarity_search_with_score`. -/
def similarity_search_with_score (vs : VectorStore) (k : Nat)
    (filter_criteria : Option QdrantFilter) : Except String (List (Document × ℚ)) :=
  match vs.ranked with
  | Except.error e => Except.error e
  | Except.ok docs =>
      Except.ok ((match filter_criteria with
        | none => docs
        | some f => docs.filter fun p => filterMatches f p.1).take k)

/-- `DatasetRetrievalService.search_by_dataset_ids(query, dataset_ids,
max_results, include_scores)`: builds the id filter, searches, and converts any
search error into an empty result list. -/
def search_by_dataset_ids (vs : VectorStore) (query : String) (dataset_ids : List String)
    (max_results : Nat) (include_scores : Bool) : List SearchResult :=
  let filter_criteria := _build_dataset_id_filter dataset_ids
  if include_scores then
    match similarity_search_with_score vs max_results (some filter_criteria) with
    | Except.ok dws => dws.map fun dw => SearchResult.from_documents dw.1 (some dw.2)
    | Except.error _ => []
  else
    match similarity_search vs max_results (some filter_criteria) with
    | Except.ok ds => ds.map fun doc => SearchResult.from_documents doc none
    | Except.error _ => []

/-- `DatasetRetrievalService.search_all_embeddings(query, max_results,
include_scores)`: unrestricted search, converting any error into `[]`. -/
def search_all_embeddings (vs : VectorStore) (query : String)
    (max_results : Nat) (include_scores : Bool) : List SearchResult :=
  if include_scores then
    match similarity_search_with_score vs max_results none with
    | Except.ok dws => dws.map fun dw => SearchResult.from_documents dw.1 (some dw.2)
    | Except.error _ => []
  else
    match similarity_search vs max_results none with
    | Except.ok ds => ds.map fun doc => SearchResult.from_documents doc none
    | Except.error _ => []

/-- The parameter names of `DatasetRetrievalService.search_by_dataset_ids`
(from its `def` line, `self` aside). -/
def searchByDatasetIdsParams : List String :=
  ["query", "dataset_ids", "max_results", "include_scores"]

/-- The parameter names of `DatasetRetrievalService.search_all_embeddings`. -/
def searchAllEmbeddingsParams : List String :=
  ["query", "max_results", "include_scores"]

/-- The keyword arguments used at the orchestrator call site of
`search_by_dataset_ids` (`orchestrator.py`, lines 95-100). -/
def orchestratorSearchByDatasetIdsKeywords : List String :=
  ["query", "dataset_ids", "max_results", "min_score"]

/-- The keyword arguments used at the orchestrator call site of
`search_all_embeddings` (`orchestrator.py`, lines 115-119). -/
def orchestratorSearchAllEmbeddingsKeywords : List String :=
  ["query", "max_results", "min_score"]

/-- Python call semantics: a call binds only if every keyword argument names a
parameter of the callee; otherwise the call raises `TypeError`. -/
def keywordsAccepted (keywords params : List String) : Bool :=
  keywords.all params.contains

/-- Observable collaborator invocations made by one pipeline run. -/
inductive Call where
  | geocodeCall (place : String) : Call
  | spatialCall (bbox : BoundingBox) : Call
  | vectorCallRestricted (query : String) (ids : List String) (k : Nat) : Call
  | vectorCallAll (query : String) (k : Nat) : Call
  | llmCall (datasets_info : String) : Call
deriving DecidableEq

/-- The `score_info` fragment of `_format_datasets_for_prompt`: Python
truthiness makes both `None` and `0.0` scores print nothing. -/
def scoreInfo (score : Option ℚ) : String :=
  match score with
  | some s => if s ≠ 0 then " (Relevance: " ++ toString s ++ ")" else ""
  | none => ""

/-- `ResponseGenerator._format_datasets_for_prompt`. -/
def formatDatasetsForPrompt (search_results : List SearchResult) : String :=
  if search_results = [] then "No datasets found"
  else String.intercalate "\n\n"
    ((search_results.enumFrom 1).map fun p =>
      toString p.1 ++ ". Dataset ID: " ++ p.2.dataset_id ++ " " ++ scoreInfo p.2.score ++
        " \n Content: " ++ p.2.content)

/-- One entry of the `source_datasets` list in the API response. -/
structure ResponseDatasetInfo where
  dataset_id : String
  relevance_score : Option ℚ
  metadata : Option (List (String × String))
deriving DecidableEq

/-- `ResponseGenerator._format_datasets_for_response`. -/
def _format_datasets_for_response (search_results : List SearchResult) :
    List ResponseDatasetInfo :=
  search_results.map fun r => ⟨r.dataset_id, r.score, r.metadata⟩

/-- The dictionary returned by `ResponseGenerator.generate_response` and
`RAGOrchestrator.process_query`. -/
structure Response where
  answer : String
  source_datasets : List ResponseDatasetInfo
deriving DecidableEq

/-- `ResponseGenerator.generate_response`: formats the prompt context, invokes
the language-model chain (outcome supplied by the `llm` oracle applied to the
original query and the formatted context), and on a chain error falls back to
the templated count answer; `source_datasets` is returned in both cases. The
second component records the collaborator calls made. -/
def generate_response (llm : String → String → Except String String)
    (original_query : String) (search_results : List SearchResult) :
    Response × List Call :=
  let datasets_info := formatDatasetsForPrompt search_results
  match llm original_query datasets_info with
  | Except.ok response_text =>
      (⟨response_text, _format_datasets_for_response search_results⟩,
        [Call.llmCall datasets_info])
  | Except.error _ =>
      (⟨"I found " ++ toString search_results.length ++
          " datsasets related to your query, but could not generate a detailed response.",
        _format_datasets_for_response search_results⟩,
        [Call.llmCall datasets_info])

/-- The collaborator oracles one `RAGOrchestrator.process_query` invocation
draws on: the parse outcome, the per-attempt geocoder outcomes, the PostGIS
connection state and query outcome, the vector store, the response-generation
language model, and the configured `THRESHOLD_MIN_SCORE`. -/
structure Collaborators where
  parse : String → Except String QueryIntent
  geocode : Nat → GeocodeOutcome
  connectionEstablished : Bool
  spatialQuery : ℚ → ℚ → ℚ → ℚ → Except String (List String)
  vectorStore : VectorStore
  llm : String → String → Except String String
  min_score : ℚ

/-- `RAGOrchestrator._process_location_based_query`. The restricted-search call
site passes the keyword `min_score`, which `search_by_dataset_ids` does not
accept, so per Python call semantics that call raises `TypeError`; the branch
that would run had the keyword been accepted is kept under the
`keywordsAccepted` test. -/
def _process_location_based_query (c : Collaborators) (parsed_query : QueryIntent)
    (original_query : String) (max_results : Nat) : Except String Response × List Call :=
  match parsed_query.locations with
  | [] => (Except.error "IndexError: list index out of range", [])
  | location :: _ =>
    match (get_bounding_box c.geocode location 3).1 with
    | Except.error e => (Except.error e, [Call.geocodeCall location])
    | Except.ok none =>
        let rp := generate_response c.llm original_query []
        (Except.ok rp.1, Call.geocodeCall location :: rp.2)
    | Except.ok (some bounding_box) =>
        match find_dataset_ids_by_bbox c.connectionEstablished c.spatialQuery bounding_box with
        | Except.error e =>
            (Except.error e, [Call.geocodeCall location, Call.spatialCall bounding_box])
        | Except.ok dataset_ids =>
            if dataset_ids.length = 0 then
              let rp := generate_response c.llm original_query []
              (Except.ok rp.1,
                Call.geocodeCall location :: Call.spatialCall bounding_box :: rp.2)
            else
              let search_query := String.intercalate " " parsed_query.core_search_terms
              if keywordsAccepted orchestratorSearchByDatasetIdsKeywords
                  searchByDatasetIdsParams then
                let search_results :=
                  search_by_dataset_ids c.vectorStore search_query dataset_ids max_results false
                let rp := generate_response c.llm original_query search_results
                (Except.ok rp.1,
                  Call.geocodeCall location :: Call.spatialCall bounding_box ::
                    Call.vectorCallRestricted search_query dataset_ids max_results :: rp.2)
              else
                (Except.error
                  "TypeError: search_by_dataset_ids() got an unexpected keyword argument min_score",
                  [Call.geocodeCall location, Call.spatialCall bounding_box])

/-- Line 114 of `orchestrator.py`: the semantic-only search text is the joined
core terms when `core_search_terms` is truthy (non-empty), else the raw
original query verbatim. -/
def semanticOnlySearchText (parsed_query : QueryIntent) (original_query : String) : String :=
  if parsed_query.core_search_terms ≠ [] then
    String.intercalate " " parsed_query.core_search_terms
  else original_query

/-- `RAGOrchestrator._process_semantic_only_query`. The search text is the
joined core terms when non-empty, else the raw original query (line 114); the
call site passes the keyword `min_score`, which `search_all_embeddings` does
not accept. -/
def _process_semantic_only_query (c : Collaborators) (parsed_query : QueryIntent)
    (original_query : String) (max_results : Nat) : Except String Response × List Call :=
  let search_query := semanticOnlySearchText parsed_query original_query
  if keywordsAccepted orchestratorSearchAllEmbeddingsKeywords searchAllEmbeddingsParams then
    let search_results := search_all_embeddings c.vectorStore search_query max_results false
    let rp := generate_response c.llm original_query search_results
    (Except.ok rp.1, Call.vectorCallAll search_query max_results :: rp.2)
  else
    (Except.error
      "TypeError: search_all_embeddings() got an unexpected keyword argument min_score", [])

/-- The fixed fallback dictionary of `process_query`. -/
def fallbackResponse : Response :=
  ⟨"I encountered an error processing your query. Please try again", []⟩

/-- The body of the `try` block of `RAGOrchestrator.process_query`: parse, then
route on `has_location`. -/
def pipelineResult (c : Collaborators) (user_query : String) (max_results : Nat) :
    Except String Response × List Call :=
  match c.parse user_query with
  | Except.error e => (Except.error e, [])
  | Except.ok parsed_query =>
      if parsed_query.has_location then
        _process_location_based_query c parsed_query user_query max_results
      else
        _process_semantic_only_query c parsed_query user_query max_results

/-- `RAGOrchestrator.process_query`: any exception escaping the pipeline stages
is caught and converted to the fixed fallback response. -/
def process_query (c : Collaborators) (user_query : String) (max_results : Nat) :
    Response × List Call :=
  match pipelineResult c user_query max_results with
  | (Except.ok r, calls) => (r, calls)
  | (Except.error _, calls) => (fallbackResponse, calls)

/-- Example intent with a location, as in end-to-end scenario 1 of the spec. -/
def exIntentLoc : QueryIntent := ⟨"traffic data", ["Munich"], [], [], "English"⟩

/-- Example intent without a location, as in end-to-end scenario 2 of the spec. -/
def exIntentNoLoc : QueryIntent := ⟨"population statistics", [], [], [], "English"⟩

/-- Example language-model oracle that always completes successfully. -/
def okLlm : String → String → Except String String :=
  fun _ _ => Except.ok "Sure, check out dataset ds-9."

/-- Example collaborators for a location-based run: parsing succeeds, geocoding
returns a valid box on the first attempt, the spatial filter finds one dataset. -/
def exCollabLocation : Collaborators :=
  ⟨fun _ => Except.ok exIntentLoc, fun _ => GeocodeOutcome.box 48 49 11 12, true,
    fun _ _ _ _ => Except.ok ["ds-1"], ⟨Except.ok []⟩, okLlm, 1 / 2⟩

/-- Example collaborators for a semantic-only run: parsing succeeds with a
location-free intent. -/
def exCollabSemantic : Collaborators :=
  ⟨fun _ => Except.ok exIntentNoLoc, fun _ => GeocodeOutcome.noBox, true,
    fun _ _ _ _ => Except.ok [], ⟨Except.ok []⟩, okLlm, 1 / 2⟩

/-- Example collaborators for a location-based run whose geocoding finds no
match, as in end-to-end scenario 3 of the spec. -/
def exCollabNoGeocode : Collaborators :=
  ⟨fun _ => Except.ok exIntentLoc, fun _ => GeocodeOutcome.noBox, true,
    fun _ _ _ _ => Except.ok ["ds-1"], ⟨Except.ok []⟩, okLlm, 1 / 2⟩

/-- Example document stored in the vector index. -/
def exDoc : Document := ⟨"content about traffic", [("dataset_id", "ds-1"), ("title", "t")]⟩

/-- Stripping is idempotent on character lists. -/
theorem stripList_idem (l : List Char) : stripList (stripList l) = stripList l := by
  unfold stripList
  have hhead : List.dropWhile Char.isWhitespace
      (List.rdropWhile Char.isWhitespace (List.dropWhile Char.isWhitespace l)) =
      List.rdropWhile Char.isWhitespace (List.dropWhile Char.isWhitespace l) := by
    rw [List.dropWhile_eq_self_iff]
    intro hl
    have hpre := List.rdropWhile_prefix Char.isWhitespace (List.dropWhile Char.isWhitespace l)
    have hlen : 0 < (List.dropWhile Char.isWhitespace l).length :=
      lt_of_lt_of_le hl hpre.length_le
    have hg := hpre.getElem hl
    rw [List.get_eq_getElem, hg]
    have hz := List.dropWhile_get_zero_not Char.isWhitespace l hlen
    rwa [List.get_eq_getElem] at hz
  rw [hhead, List.rdropWhile_idempotent]

/-- Python `str.strip()` is idempotent. -/
theorem pyStrip_idem (s : String) : pyStrip (pyStrip s) = pyStrip s := by
  unfold pyStrip
  rw [show (String.mk (stripList s.data)).data = stripList s.data from rfl, stripList_idem]

/-- String append is left-cancellative. -/
theorem string_append_left_cancel (s a b : String) (h : s ++ a = s ++ b) : a = b := by
  have hd := congrArg String.data h
  rw [String.data_append, String.data_append] at hd
  exact String.ext (List.append_cancel_left hd)

/-- Boolean equality of strings is invariant under a common prepended string. -/
theorem string_beq_append_left (s a b : String) : ((s ++ a) == (s ++ b)) = (a == b) := by
  by_cases h : a = b
  · simp [h]
  · have hne : ¬(s ++ a = s ++ b) := fun hc => h (string_append_left_cancel s a b hc)
    simp [h, hne]

/-- Looking up a `metadata.`-prefixed key in the payload view of a document
metadata list is looking up the unprefixed key in the metadata list. -/
theorem payloadGet_metadata (content : String) (metadata : List (String × String))
    (k : String) :
    payloadGet ⟨content, metadata⟩ ("metadata." ++ k) = List.lookup k metadata := by
  unfold payloadGet
  induction metadata with
  | nil => rfl
  | cons p t ih =>
      simp only [List.map_cons, List.lookup, string_beq_append_left]
      cases h : (k == p.1) <;> simp_all

/-- C8: for all rational coordinate values, `BoundingBox` construction succeeds
exactly when `north, south ∈ [-90, 90]`, `east, west ∈ [-180, 180]` and
`south ≤ north`; on success the four fields are returned unchanged (no value is
silently clamped), and any violation raises a validation error. -/
theorem bounding_box_validation_exact (north south east west : ℚ) :
    ((∃ b, mkBoundingBox north south east west = Except.ok b) ↔
      (-90 ≤ north ∧ north ≤ 90 ∧ -90 ≤ south ∧ south ≤ 90 ∧
        -180 ≤ east ∧ east ≤ 180 ∧ -180 ≤ west ∧ west ≤ 180 ∧ south ≤ north)) ∧
    (∀ b, mkBoundingBox north south east west = Except.ok b →
      b.north = north ∧ b.south = south ∧ b.east = east ∧ b.west = west) := by
  have hok : ∀ b, mkBoundingBox north south east west = Except.ok b →
      ((-90 ≤ north ∧ north ≤ 90 ∧ -90 ≤ south ∧ south ≤ 90) ∧
        (-180 ≤ east ∧ east ≤ 180 ∧ -180 ≤ west ∧ west ≤ 180) ∧ ¬south > north) ∧
      b = ⟨north, south, east, west⟩ := by
    intro b hb
    unfold mkBoundingBox at hb
    by_cases h1 : ¬(-90 ≤ north ∧ north ≤ 90 ∧ -90 ≤ south ∧ south ≤ 90)
    · rw [if_pos h1] at hb; cases hb
    · rw [if_neg h1] at hb
      by_cases h2 : ¬(-180 ≤ east ∧ east ≤ 180 ∧ -180 ≤ west ∧ west ≤ 180)
      · rw [if_pos h2] at hb; cases hb
      · rw [if_neg h2] at hb
        by_cases h3 : south > north
        · rw [if_pos h3] at hb; cases hb
        · rw [if_neg h3] at hb
          push_neg at h1 h2
          injection hb with hb
          exact ⟨⟨h1, h2, h3⟩, hb.symm⟩
  constructor
  · constructor
    · intro ⟨b, hb⟩
      obtain ⟨⟨h1, h2, h3⟩, -⟩ := hok b hb
      exact ⟨h1.1, h1.2.1, h1.2.2.1, h1.2.2.2, h2.1, h2.2.1, h2.2.2.1, h2.2.2.2,
        le_of_not_lt h3⟩
    · intro ⟨a1, a2, a3, a4, a5, a6, a7, a8, a9⟩
      refine ⟨⟨north, south, east, west⟩, ?_⟩
      unfold mkBoundingBox
      rw [if_neg (not_not_intro ⟨a1, a2, a3, a4⟩), if_neg (not_not_intro ⟨a5, a6, a7, a8⟩),
        if_neg (not_lt.mpr a9)]
  · intro b hb
    obtain ⟨-, hb⟩ := hok b hb
    rw [hb]
    exact ⟨rfl, rfl, rfl, rfl⟩

/-- C8 witness: the spec example box `south=40, north=45, west=10, east=15`
constructs successfully with unchanged fields. -/
theorem bounding_box_validation_exact_witness :
    mkBoundingBox 45 40 15 10 = Except.ok ⟨45, 40, 15, 10⟩ := by
  have h := bounding_box_validation_exact 45 40 15 10
  obtain ⟨b, hb⟩ := h.1.mpr (by norm_num)
  have hf := h.2 b hb
  rcases b with ⟨bn, bs, be, bw⟩
  obtain ⟨h1, h2, h3, h4⟩ := hf
  subst h1
  subst h2
  subst h3
  subst h4
  exact hb

/-- C9: with an established connection, when the underlying spatial-index query
raises an error, `find_dataset_ids_by_bbox` returns an empty collection rather
than propagating the error to its caller. -/
theorem find_dataset_ids_by_bbox_error_yields_empty
    (spatialQuery : ℚ → ℚ → ℚ → ℚ → Except String (List String)) (bbox : BoundingBox)
    (e : String)
    (h : spatialQuery bbox.west bbox.south bbox.east bbox.north = Except.error e) :
    find_dataset_ids_by_bbox true spatialQuery bbox = Except.ok [] := by
  unfold find_dataset_ids_by_bbox
  rw [h]
  rfl

/-- C9 witness: a concrete always-failing spatial query yields the empty list. -/
theorem find_dataset_ids_by_bbox_error_yields_empty_witness :
    find_dataset_ids_by_bbox true (fun _ _ _ _ => Except.error "connection reset")
      ⟨49, 48, 12, 11⟩ = Except.ok [] :=
  find_dataset_ids_by_bbox_error_yields_empty
    (fun _ _ _ _ => Except.error "connection reset") ⟨49, 48, 12, 11⟩ "connection reset" rfl

/-- C5 counterexample: with an empty result list the language-model chain IS
invoked (the call trace records the completion call, with the literal context
string), and the returned answer is whatever the model produced rather than a
generated-in-code no-datasets answer; this refutes the claim that the empty
case is answered without invoking the language-model completion. -/
theorem empty_results_llm_invocation_counterexample :
    (generate_response okLlm "flood zones in Atlantis" []).2 =
      [Call.llmCall "No datasets found"] ∧
    (generate_response okLlm "flood zones in Atlantis" []).1.answer =
      "Sure, check out dataset ds-9." := by
  decide

/-- C5 amended: for every call to `generate_response` with an empty list of
`SearchResult`, the returned `source_datasets` list is empty and the prompt
context passed to the language-model completion is the fixed string
`No datasets found` — but the completion IS invoked, and the answer is its
output (or the templated zero-count fallback when the completion fails). -/
theorem empty_results_fixed_context_llm_invoked
    (llm : String → String → Except String String) (original_query : String) :
    (generate_response llm original_query []).1.source_datasets = [] ∧
    (generate_response llm original_query []).2 = [Call.llmCall "No datasets found"] ∧
    (generate_response llm original_query []).1.answer =
      (match llm original_query "No datasets found" with
        | Except.ok t => t
        | Except.error _ =>
            "I found 0 datsasets related to your query, but could not generate a detailed response.") := by
  have hfmt : formatDatasetsForPrompt [] = "No datasets found" := rfl
  cases h : llm original_query "No datasets found" <;>
    simp [generate_response, hfmt, _format_datasets_for_response, h] <;> rfl

/-- C2: `process_query` is a total function into well-formed responses: for
every collaborator behaviour, query and result bound, either the pipeline body
succeeds and its response is returned unchanged, or some pipeline stage raised
and the fixed fallback response (apology answer, empty `source_datasets`) is
returned instead; no error propagates to the caller. -/
theorem process_query_total_with_fixed_fallback
    (c : Collaborators) (user_query : String) (max_results : Nat) :
    (∃ r, (pipelineResult c user_query max_results).1 = Except.ok r ∧
      process_query c user_query max_results =
        (r, (pipelineResult c user_query max_results).2)) ∨
    ((∃ e, (pipelineResult c user_query max_results).1 = Except.error e) ∧
      (process_query c user_query max_results).1 = fallbackResponse ∧
      fallbackResponse.answer =
        "I encountered an error processing your query. Please try again" ∧
      fallbackResponse.source_datasets = []) := by
  unfold process_query
  rcases hres : pipelineResult c user_query max_results with ⟨res, calls⟩
  rcases res with e | r
  · right
    exact ⟨⟨e, rfl⟩, rfl, rfl, rfl⟩
  · left
    exact ⟨r, rfl, rfl⟩

/-- C3: for every query whose parsed intent has an empty `locations` list, the
pipeline makes no geocoding call and no spatial-filter call — the call trace is
empty — but, contrary to the claim that the unrestricted semantic search and
answer synthesis are then performed, neither runs: the `search_all_embeddings`
call site passes the unaccepted keyword `min_score`, the call raises
`TypeError`, and the fixed fallback response is returned. -/
theorem semantic_only_no_geocode_no_spatial_but_no_search
    (c : Collaborators) (user_query : String) (max_results : Nat) (parsed : QueryIntent)
    (hp : c.parse user_query = Except.ok parsed) (hl : parsed.locations = []) :
    (process_query c user_query max_results).2 = [] ∧
    (process_query c user_query max_results).1 = fallbackResponse := by
  have hloc : parsed.has_location = false := by
    simp [QueryIntent.has_location, hl]
  have hk : keywordsAccepted orchestratorSearchAllEmbeddingsKeywords
      searchAllEmbeddingsParams = false := by decide
  simp [process_query, pipelineResult, hp, hloc, _process_semantic_only_query, hk,
    fallbackResponse]

/-- C3 witness: concrete semantic-only run. -/
theorem semantic_only_no_geocode_no_spatial_but_no_search_witness :
    (process_query exCollabSemantic "population statistics" 3).2 = [] ∧
    (process_query exCollabSemantic "population statistics" 3).1 = fallbackResponse :=
  semantic_only_no_geocode_no_spatial_but_no_search exCollabSemantic
    "population statistics" 3 exIntentNoLoc rfl rfl

/-- C4: for every query whose parsed intent has a location but whose first
location resolves to no bounding box, the pipeline synthesizes the answer from
the empty result list (the response is exactly the output of the response
generator on `[]`, so `source_datasets` is empty) and the call trace contains only the
geocoding call and the synthesis call — no spatial-filter call and no
vector-search call, in particular no fallback to unrestricted search. -/
theorem unresolved_location_empty_sources_no_spatial_no_vector
    (c : Collaborators) (user_query : String) (max_results : Nat)
    (parsed : QueryIntent) (location : String) (rest : List String)
    (hp : c.parse user_query = Except.ok parsed)
    (hl : parsed.locations = location :: rest)
    (hg : (get_bounding_box c.geocode location 3).1 = Except.ok none) :
    (process_query c user_query max_results).1 =
      (generate_response c.llm user_query []).1 ∧
    (process_query c user_query max_results).1.source_datasets = [] ∧
    (process_query c user_query max_results).2 =
      [Call.geocodeCall location, Call.llmCall "No datasets found"] := by
  have hloc : parsed.has_location = true := by
    simp [QueryIntent.has_location, hl]
  cases h : c.llm user_query "No datasets found" <;>
    simp [process_query, pipelineResult, _process_location_based_query, hp, hloc, hl, hg,
      generate_response, show formatDatasetsForPrompt [] = "No datasets found" from rfl,
      _format_datasets_for_response, h]

/-- C4 witness: end-to-end scenario 3 of the spec — a location-bearing query
whose place geocodes to nothing. -/
theorem unresolved_location_empty_sources_no_spatial_no_vector_witness :
    (process_query exCollabNoGeocode "traffic data in Munich" 3).1 =
      (generate_response exCollabNoGeocode.llm "traffic data in Munich" []).1 ∧
    (process_query exCollabNoGeocode "traffic data in Munich" 3).1.source_datasets = [] ∧
    (process_query exCollabNoGeocode "traffic data in Munich" 3).2 =
      [Call.geocodeCall "Munich", Call.llmCall "No datasets found"] :=
  unresolved_location_empty_sources_no_spatial_no_vector exCollabNoGeocode
    "traffic data in Munich" 3 exIntentLoc "Munich" [] rfl rfl rfl

/-- C1: no `min_score` post-filter exists in the code. Neither search method of
`DatasetRetrievalService` accepts a `min_score` parameter, while both
orchestrator call sites pass that keyword, so per Python call semantics every
semantic search attempted by the pipeline — restricted or unrestricted —
raises `TypeError` before any vector query runs, and `process_query` degrades
to the fixed fallback: concretely, a location-based run whose spatial filter
found a dataset, and a semantic-only run, both return the fallback response. -/
theorem min_score_keyword_mismatch_every_search_raises :
    keywordsAccepted orchestratorSearchByDatasetIdsKeywords searchByDatasetIdsParams = false ∧
    keywordsAccepted orchestratorSearchAllEmbeddingsKeywords searchAllEmbeddingsParams = false ∧
    searchByDatasetIdsParams.contains "min_score" = false ∧
    searchAllEmbeddingsParams.contains "min_score" = false ∧
    process_query exCollabLocation "traffic data in Munich" 3 =
      (fallbackResponse, [Call.geocodeCall "Munich", Call.spatialCall ⟨49, 48, 12, 11⟩]) ∧
    process_query exCollabSemantic "population statistics" 3 = (fallbackResponse, []) := by
  decide

/-- The literal payload key used by the filter splits into the `metadata.`
payload prefix and the metadata field name. -/
theorem metadataKey_split : ("metadata.dataset_id" : String) = "metadata." ++ "dataset_id" := by
  decide

/-- A built `dataset_id` field condition holds on a document exactly when the
document metadata maps `dataset_id` to the match value. -/
theorem condMatches_dataset_id (content : String) (metadata : List (String × String))
    (d : String) :
    condMatches ⟨content, metadata⟩ ⟨"metadata.dataset_id", d⟩ =
      (List.lookup "dataset_id" metadata == some d) := by
  show (payloadGet ⟨content, metadata⟩ "metadata.dataset_id" == some d) = _
  rw [metadataKey_split, payloadGet_metadata]

/-- C6: for every non-empty restriction list, the constructed Qdrant filter
matches a document exactly when the document carries one of the given dataset
identifiers — exact match for a single identifier, logical OR (never AND) for
several — and every `SearchResult` returned by the restricted search carries
one of the identifiers in the restriction set. -/
theorem dataset_id_filter_or_semantics_and_restriction (dataset_ids : List String)
    (hne : dataset_ids ≠ []) :
    (∀ doc : Document,
      filterMatches (_build_dataset_id_filter dataset_ids) doc = true ↔
        ∃ d ∈ dataset_ids, List.lookup "dataset_id" doc.metadata = some d) ∧
    (∀ (vs : VectorStore) (query : String) (max_results : Nat) (include_scores : Bool)
        (r : SearchResult),
      r ∈ search_by_dataset_ids vs query dataset_ids max_results include_scores →
        r.dataset_id ∈ dataset_ids) := by
  have hiff : ∀ doc : Document,
      filterMatches (_build_dataset_id_filter dataset_ids) doc = true ↔
        ∃ d ∈ dataset_ids, List.lookup "dataset_id" doc.metadata = some d := by
    intro doc
    rcases doc with ⟨content, metadata⟩
    cases dataset_ids with
    | nil => exact absurd rfl hne
    | cons d rest =>
        cases rest with
        | nil =>
            simp [_build_dataset_id_filter, filterMatches, condMatches_dataset_id]
        | cons d2 rest2 =>
            simp [_build_dataset_id_filter, filterMatches, List.any_map,
              List.any_eq_true, condMatches_dataset_id, Function.comp]
  have hdoc : ∀ doc : Document,
      filterMatches (_build_dataset_id_filter dataset_ids) doc = true →
      ∀ s, (SearchResult.from_documents doc s).dataset_id ∈ dataset_ids := by
    intro doc hf s
    obtain ⟨d, hd, hlk⟩ := (hiff doc).mp hf
    simpa [SearchResult.from_documents, hlk] using hd
  refine ⟨hiff, ?_⟩
  intro vs query max_results include_scores r hr
  rcases hvs : vs.ranked with e | docs
  · cases include_scores <;>
      simp [search_by_dataset_ids, similarity_search, similarity_search_with_score,
        hvs] at hr
  · cases include_scores
    · have hr' : r ∈ ((docs.filter fun p =>
          filterMatches (_build_dataset_id_filter dataset_ids) p.1).take
            max_results).map (fun p => SearchResult.from_documents p.1 none) := by
        simpa [search_by_dataset_ids, similarity_search, hvs, List.map_map,
          Function.comp] using hr
      obtain ⟨p, hp, hpr⟩ := List.mem_map.mp hr'
      have hfil := List.mem_filter.mp (List.take_subset _ _ hp)
      rw [← hpr]
      exact hdoc p.1 hfil.2 none
    · have hr' : r ∈ ((docs.filter fun p =>
          filterMatches (_build_dataset_id_filter dataset_ids) p.1).take
            max_results).map (fun p => SearchResult.from_documents p.1 (some p.2)) := by
        simpa [search_by_dataset_ids, similarity_search_with_score, hvs] using hr
      obtain ⟨p, hp, hpr⟩ := List.mem_map.mp hr'
      have hfil := List.mem_filter.mp (List.take_subset _ _ hp)
      rw [← hpr]
      exact hdoc p.1 hfil.2 (some p.2)

/-- C6 witness: with restriction set `[ds-1, ds-2]`, the example document
matches the built filter, and a concrete restricted search returns a result
carrying an identifier from the set. -/
theorem dataset_id_filter_or_semantics_and_restriction_witness :
    filterMatches (_build_dataset_id_filter ["ds-1", "ds-2"]) exDoc = true ∧
    (⟨"ds-1", "content about traffic", none, some exDoc.metadata⟩ :
      SearchResult).dataset_id ∈ ["ds-1", "ds-2"] := by
  have h := dataset_id_filter_or_semantics_and_restriction ["ds-1", "ds-2"] (by decide)
  constructor
  · exact (h.1 exDoc).mpr ⟨"ds-1", by decide, by decide⟩
  · exact h.2 ⟨Except.ok [(exDoc, 9 / 10)]⟩ "traffic" 3 false
      ⟨"ds-1", "content about traffic", none, some exDoc.metadata⟩ (by decide)

/-- When every attempt up to the bound fails transiently, the retry loop issues
one lookup per attempt and ends with `none` after the last one. -/
theorem getBBoxLoop_all_transient (oracle : Nat → GeocodeOutcome) (r : Nat)
    (htrans : ∀ i, i < r → oracle i = GeocodeOutcome.transient) :
    ∀ remaining attempt, attempt + remaining = r → 0 < remaining →
      getBBoxLoop oracle r remaining attempt = (Except.ok none, r) := by
  intro remaining
  induction remaining with
  | zero => intro attempt _ h0; exact absurd h0 (by omega)
  | succ n ih =>
      intro attempt hsum _
      have ha : attempt < r := by omega
      simp only [getBBoxLoop, htrans attempt ha]
      by_cases hlast : attempt = r - 1
      · rw [if_pos hlast]
        have h1 : attempt + 1 = r := by omega
        rw [h1]
      · rw [if_neg hlast]
        exact ih (attempt + 1) (by omega) (by omega)

/-- A permanent no-match outcome ends the retry loop immediately, after the
lookups for the preceding transient attempts plus this one. -/
theorem getBBoxLoop_noBox_immediate (oracle : Nat → GeocodeOutcome) (r k : Nat)
    (hk : k < r) (htrans : ∀ i, i < k → oracle i = GeocodeOutcome.transient)
    (hnb : oracle k = GeocodeOutcome.noBox) :
    ∀ remaining attempt, attempt + remaining = r → attempt ≤ k →
      getBBoxLoop oracle r remaining attempt = (Except.ok none, k + 1) := by
  intro remaining
  induction remaining with
  | zero => intro attempt hsum hak; exact absurd hsum (by omega)
  | succ n ih =>
      intro attempt hsum hak
      by_cases heq : attempt = k
      · subst heq
        simp only [getBBoxLoop, hnb]
      · have hlt : attempt < k := by omega
        simp only [getBBoxLoop, htrans attempt hlt]
        rw [if_neg (show attempt ≠ r - 1 by omega)]
        exact ih (attempt + 1) (by omega) (by omega)

/-- C7: for every retry bound of at least one, `get_bounding_box` issues one
geocoding lookup per attempt: when every attempt fails transiently it retries
up to the bound and returns `none` after the last failed attempt, having issued
exactly `retry_attempts` lookups; a successful lookup with no bounding box at
attempt `k` returns `none` immediately with `k + 1` lookups issued, without
consuming the remaining retries. -/
theorem get_bounding_box_retry_semantics (oracle : Nat → GeocodeOutcome)
    (location_query : String) (retry_attempts : Nat) (hr : 1 ≤ retry_attempts) :
    ((∀ i, i < retry_attempts → oracle i = GeocodeOutcome.transient) →
      get_bounding_box oracle location_query retry_attempts =
        (Except.ok none, retry_attempts)) ∧
    (∀ k, k < retry_attempts →
      (∀ i, i < k → oracle i = GeocodeOutcome.transient) →
      oracle k = GeocodeOutcome.noBox →
      get_bounding_box oracle location_query retry_attempts = (Except.ok none, k + 1)) := by
  unfold get_bounding_box
  constructor
  · intro ht
    exact getBBoxLoop_all_transient oracle retry_attempts ht retry_attempts 0
      (by omega) (by omega)
  · intro k hk ht hnb
    exact getBBoxLoop_noBox_immediate oracle retry_attempts k hk ht hnb retry_attempts 0
      (by omega) (by omega)

/-- C7 witness: with three attempts, an always-transient geocoder yields `none`
after exactly 3 lookups, and a geocoder that is transient once and then
reports no match yields `none` after exactly 2 lookups. -/
theorem get_bounding_box_retry_semantics_witness :
    get_bounding_box (fun _ => GeocodeOutcome.transient) "Atlantis" 3 =
      (Except.ok none, 3) ∧
    get_bounding_box (fun i => if i = 0 then GeocodeOutcome.transient else GeocodeOutcome.noBox)
      "Atlantis" 3 = (Except.ok none, 2) := by
  constructor
  · exact (get_bounding_box_retry_semantics (fun _ => GeocodeOutcome.transient)
      "Atlantis" 3 (by decide)).1 (fun i _ => rfl)
  · exact (get_bounding_box_retry_semantics
      (fun i => if i = 0 then GeocodeOutcome.transient else GeocodeOutcome.noBox)
      "Atlantis" 3 (by decide)).2 1 (by decide)
      (fun i hi => by
        have hi0 : i = 0 := by omega
        subst hi0
        rfl)
      rfl

/-- C10: every validly constructed `QueryIntent` has non-empty
`core_search_terms` (the stripped `raw_theme`, guaranteed non-empty by
validation, is always its first element), so the semantic-only search text is
always the joined core terms and the fallback to the raw original query is
never taken. -/
theorem core_search_terms_nonempty_fallback_never_taken
    (raw_theme : String) (locations themes publishers : List String) (language : String)
    (i : QueryIntent)
    (h : mkQueryIntent raw_theme locations themes publishers language = Except.ok i) :
    i.core_search_terms ≠ [] ∧
    ∀ original_query : String,
      semanticOnlySearchText i original_query =
        String.intercalate " " i.core_search_terms := by
  unfold mkQueryIntent at h
  by_cases hs : pyStrip raw_theme = ""
  · rw [if_pos hs] at h
    cases h
  · rw [if_neg hs] at h
    injection h with h
    have hcore : i.core_search_terms ≠ [] := by
      rw [← h]
      simp [QueryIntent.core_search_terms, List.filterMap_cons, pyStrip_idem, hs]
    exact ⟨hcore, fun original_query => by simp [semanticOnlySearchText, hcore]⟩

/-- C10 witness: a concrete validated intent with padded raw theme. -/
theorem core_search_terms_nonempty_fallback_never_taken_witness :
    QueryIntent.core_search_terms ⟨"traffic data", [], ["roads"], [], "en"⟩ ≠ [] ∧
    semanticOnlySearchText ⟨"traffic data", [], ["roads"], [], "en"⟩ "raw query" =
      String.intercalate " "
        (QueryIntent.core_search_terms ⟨"traffic data", [], ["roads"], [], "en"⟩) := by
  have h := core_search_terms_nonempty_fallback_never_taken "  traffic data " [] ["roads"] []
    "en" ⟨"traffic data", [], ["roads"], [], "en"⟩ (by decide)
  exact ⟨h.1, h.2 "raw query"⟩
